import Mathlib

/-!
Shallow embedding of the console/interpreter subsystem of Math Inspector
(src/mathinspector/console/interpreter.py), together with theorems settling
the specification claims about it.

The embedding models:
  - the namespace-store routing callbacks `setitem` / `delitem`;
  - the registry synchronisation `synclocals`;
  - the statement submission entry point `push` (buffering, the "del"
    shortcut, history updates);
  - the multi-statement entry point `exec` (suppression flag toggling);
  - the output sink `write` (suppression, insignificant values,
    carriage-return collapsing, red-tag forcing);
  - the exception hook `showtraceback` (outermost-frame elision).

Python strings are modelled as Lean `String` manipulated through explicit
character-list helpers, dictionaries as association lists, and the host
`runsource` primitive (from the standard `code` module, external to the
repository) as an oracle mapping accumulated source text to one of the
outcomes it can have: more-input-needed, executed, executed-but-raised,
syntax error, or a propagating exception such as SystemExit.
-/

namespace MathInspector

/-! ### String helpers (character-based, mirroring Python string slicing) -/

/-- Python `s[:n]` (slice by characters). -/
def strTake (s : String) (n : Nat) : String := String.mk (s.toList.take n)

/-- Python `s[n:]` (slice by characters). -/
def strDrop (s : String) (n : Nat) : String := String.mk (s.toList.drop n)

/-- Python `c in s` for a single character. -/
def strContains (s : String) (c : Char) : Bool := s.toList.contains c

/-- Python `s.rsplit(c, 1)[1]` for `c = "\r"`: the text after the last
carriage return of `s`. -/
def afterLastCR (s : String) : String :=
  String.mk ((s.toList.reverse.takeWhile (fun c => c ≠ '\r')).reverse)

/-- Python whitespace (the characters stripped by `str.strip`). -/
def isPyWS (c : Char) : Bool :=
  c = ' ' || c = '\n' || c = '\t' || c = '\r' || c = '\x0b' || c = '\x0c'

/-- Python `s.strip()`. -/
def strStrip (s : String) : String :=
  String.mk (((s.toList.dropWhile isPyWS).reverse.dropWhile isPyWS).reverse)

/-- Python `s.rstrip()`. -/
def rstrip (s : String) : String :=
  String.mk ((s.toList.reverse.dropWhile isPyWS).reverse)

/-- The text-index `"end-1l linestart"` recorded by `push` as the cursor
position: the character position where the last line of the display
starts. -/
def lastLineStart (d : String) : Nat :=
  d.toList.length - (d.toList.reverse.takeWhile (fun c => c ≠ '\n')).length

/-! ### Values, registries and output items -/

/-- A value bound in the namespace, classified the way `inspect.ismodule`
classifies it: either a module object or any other object. -/
inductive Value where
  | module (name : String)
  | obj (descr : String)
deriving DecidableEq

/-- `inspect.ismodule(value)`. -/
def ismodule : Value → Bool
  | Value.module _ => true
  | Value.obj _ => false

/-- Association-list update, preserving insertion order like a Python dict. -/
def alSet (k : String) (v : Value) : List (String × Value) → List (String × Value)
  | [] => [(k, v)]
  | (k₁, v₁) :: rest => if k₁ = k then (k, v) :: rest else (k₁, v₁) :: alSet k v rest

/-- Association-list removal (`del d[k]`). -/
def alErase (k : String) : List (String × Value) → List (String × Value)
  | [] => []
  | (k₁, v₁) :: rest => if k₁ = k then rest else (k₁, v₁) :: alErase k rest

/-- Association-list key membership (`k in d`). -/
def alMem (k : String) : List (String × Value) → Bool
  | [] => false
  | (k₁, _) :: rest => if k₁ = k then true else alMem k rest

/-- Python `base.update(other)`: write every entry of `other` into `base`. -/
def alUpdate (base other : List (String × Value)) : List (String × Value) :=
  other.foldl (fun acc p => alSet p.1 p.2 acc) base

/-- An argument passed to `write`: a text string, a numpy array (modelled by
its list of entries, since only `.any()` is consulted), the value `None`, or
an exception instance (modelled by its message). -/
inductive Item where
  | str (s : String)
  | arr (xs : List Int)
  | none
  | exc (msg : String)
deriving DecidableEq

/-- Python `str(r)` for the items above. -/
def itemStr : Item → String
  | Item.str s => s
  | Item.arr xs => toString xs
  | Item.none => "None"
  | Item.exc msg => msg

/-- The single-item suppression test of `write`: an all-zero or empty numpy
array (`not args[0].any()`), or membership in `("\a", "\n", " ", "", None)`. -/
def insignificant : Item → Bool
  | Item.arr xs => decide (∀ x ∈ xs, x = 0)
  | Item.str s => decide (s = "\x07" ∨ s = "\n" ∨ s = " " ∨ s = "")
  | Item.none => true
  | Item.exc _ => false

/-- Whether `args` is a single-element call whose item is insignificant
(the `len(args) == 1` guard of `write`). -/
def singleInsignificant : List Item → Bool
  | [a] => insignificant a
  | _ => false

/-- `re.match` against `RE_TRACEBACK`: the text starts with the literal
"Traceback (most recent call last)". -/
def matchesTraceback (s : String) : Bool :=
  "Traceback (most recent call last)".toList.isPrefixOf s.toList

/-- Matching of `^[A-Za-z]*Error:` at the start of a character list. -/
def excMatchList : List Char → Bool
  | [] => false
  | c :: cs => "Error:".toList.isPrefixOf (c :: cs) || (c.isAlpha && excMatchList cs)

/-- `re.match` against `RE_EXCEPTION` (`^[A-Za-z]*Error:`). -/
def matchesException (s : String) : Bool := excMatchList s.toList

/-- The red-tag forcing step of `write`: if the text matches the
traceback-start or error-type pattern, prepend the tag "red". -/
def redForce (txt : String) (tags : List String) : List String :=
  if matchesTraceback txt || matchesException txt then "red" :: tags else tags

/-! ### Interpreter state -/

/-- An observable event, used to state ordering properties: namespace sync,
the pre/post code-analysis hooks, an invocation of the host `runsource`
primitive, and an assignment to the suppression flag. -/
inductive Event where
  | sync
  | preHook (src : String)
  | postHook (src : String)
  | runSource (src : String)
  | setFlag (b : Bool)
deriving DecidableEq

/-- Outcome of the host `runsource` primitive on a piece of source text:
`incomplete` (returns True, more input needed), `success` (compiled and
executed, returns False), `userExc tb msg` (executed but user code raised:
the top-level hook fires with traceback frames `tb` and final message `msg`,
then runsource returns False), `syntaxError` (compilation failed: the error
text is written, returns False), or `sysExit` (an exception such as
SystemExit propagates out of runsource). -/
inductive Outcome where
  | incomplete
  | success
  | userExc (tb : List String) (msg : String)
  | syntaxError (msg : String)
  | sysExit
deriving DecidableEq

/-- The interpreter state: the two external registries (`app.objects`,
`app.modules`), the local namespace (`self.locals`), the suppression flag
(`self.prevent_module_import`), the input buffer (`self.buffer`), the prompt
history (`self.prompt.history`), the display text with the recorded cursor
position, a log of tagged spans inserted by `write`, the log of executed
sources, the console-focus flag (`app.menu.setview("console", True)`), a
prompt render counter, and the event log. -/
structure St where
  objects : List (String × Value)
  modules : List (String × Value)
  locals : List (String × Value)
  preventModuleImport : Bool
  buffer : List String
  history : List String
  display : String
  cursorPos : Nat
  inserts : List (String × List String)
  executions : List String
  consoleFocused : Bool
  promptCalls : Nat
  events : List Event
deriving DecidableEq

/-- A convenient all-empty initial state. -/
def st0 : St :=
  { objects := [], modules := [], locals := [], preventModuleImport := false,
    buffer := [], history := [], display := "", cursorPos := 0, inserts := [],
    executions := [], consoleFocused := false, promptCalls := 0, events := [] }

/-! ### Namespace store callbacks and synchronisation -/

/-- `Interpreter.setitem` (interpreter.py:131-140): the vdict callback fired
on every binding in the local namespace, routing the entry into the external
module or object registry. -/
def setitem (st : St) (key : String) (value : Value) : St :=
  if ismodule value then
    if !st.preventModuleImport then
      { st with modules := alSet key value st.modules }
    else st
  else
    if st.preventModuleImport then
      if key.length = 1 ∨ strTake key 2 ≠ "__" then
        { st with objects := alSet key value st.objects }
      else st
    else
      { st with objects := alSet key value st.objects }

/-- `Interpreter.delitem` (interpreter.py:142-146). -/
def delitem (st : St) (key : String) (value : Value) : St :=
  if ismodule value then
    { st with modules := alErase key st.modules }
  else
    { st with objects := alErase key st.objects }

/-- `Interpreter.synclocals` (interpreter.py:148-150): pull the contents of
both external registries into the local namespace. -/
def synclocals (st : St) : St :=
  { st with locals := alUpdate (alUpdate st.locals st.objects) st.modules,
            events := st.events ++ [Event.sync] }

/-- `self.parse.preprocess(source)`: the external code-analysis hook invoked
before execution; it only observes the source, recorded as an event. -/
def preHook (st : St) (src : String) : St :=
  { st with events := st.events ++ [Event.preHook src] }

/-- `self.parse.postprocess(source)`: the external code-analysis hook invoked
after execution, recorded as an event. -/
def postHook (st : St) (src : String) : St :=
  { st with events := st.events ++ [Event.postHook src] }

/-- `self.prompt()`: re-render the prompt (a counter in the model). -/
def prompt (st : St) : St := { st with promptCalls := st.promptCalls + 1 }

/-! ### The output sink `write` (interpreter.py:188-228) -/

/-- One iteration of the item loop of `write`. The fold state carries the
interpreter state together with the current tag tuple, because the Python
code rebinds `tags` inside the loop (both the red-forcing line and the
exception-instance line), so tag changes persist into later iterations.
Steps, in source order: carriage-return collapsing (truncate the item to the
text after its last `\r`, delete from the recorded cursor position to the
end, insert a newline); red forcing from the traceback/error regexes; skip
`None`; append "red" for exception instances; insert the item's string form
with the current tags (logged in `inserts`); insert a tab separator when the
call had more than one argument. -/
def writeStep (nargs : Nat) (cursorPos : Nat)
    (acc : String × List (String × List String) × List String) (it : Item) :
    String × List (String × List String) × List String :=
  let d := acc.1
  let ins := acc.2.1
  let tags := acc.2.2
  let dIt :=
    match it with
    | Item.str s =>
      if strContains s '\r' then (strTake d cursorPos ++ "\n", Item.str (afterLastCR s))
      else (d, Item.str s)
    | other => (d, other)
  let d := dIt.1
  let it := dIt.2
  let tags := redForce (itemStr it) tags
  match it with
  | Item.none => (d, ins, tags)
  | it =>
    let tags :=
      match it with
      | Item.exc _ => tags ++ ["red"]
      | _ => tags
    let d := d ++ itemStr it
    let ins := ins ++ [(itemStr it, tags)]
    let d := if nargs > 1 then d ++ "\t" else d
    (d, ins, tags)

/-- The trailing-newline rule of `write`: ensure a trailing newline whenever
the display is non-blank (`if self.get("1.0", "end").strip()`). -/
def finishDisplay (d : String) : String :=
  if strStrip d = "" then d else d ++ "\n"

/-- `Interpreter.write` (interpreter.py:188-228): suppress entirely while the
suppression flag is active; suppress a single insignificant item; otherwise
process each item through `writeStep` (the loop mutates only the display,
the inserted-span log and the tag tuple) and ensure a trailing newline. The
best-effort highlighting passes and the prompt repositioning have no effect
on the modelled state. -/
def write (st : St) (args : List Item) (tags : List String) : St :=
  if st.preventModuleImport then st
  else if singleInsignificant args then st
  else
    let r := args.foldl (writeStep args.length st.cursorPos) (st.display, st.inserts, tags)
    { st with display := finishDisplay r.1, inserts := r.2.1 }

/-! ### The exception hook `showtraceback` (interpreter.py:230-239) -/

/-- `traceback.format_exception(etype, value, tb)` as a list of lines: the
header line, one line per traceback frame, and the final exception line. -/
def format_exception (tb : List String) (msg : String) : List String :=
  "Traceback (most recent call last):\n" :: tb ++ [msg]

/-- `Interpreter.showtraceback` (interpreter.py:230-239): format the
exception chain starting at `tb.tb_next` (dropping the outermost frame, the
interpreter's own dispatch frame), write the joined and right-stripped text
with the "red" tag, and force the console view into focus. -/
def showtraceback (st : St) (tb : List String) (msg : String) : St :=
  let rendered := rstrip (String.join (format_exception (tb.drop 1) msg))
  let st := write st [Item.str rendered] ["red"]
  { st with consoleFocused := true }

/-! ### runsource, push and exec -/

/-- The host `runsource(source, filename, symbol)` primitive (inherited from
`code.InteractiveInterpreter`, external to the repository), driven by an
oracle giving the outcome of compiling/executing each source text. Returns
`some true` when more input is needed, `some false` when the source was
dealt with (executed, executed-and-hook-reported, or syntax error reported
through `write`), and `none` when an exception propagates out of it. -/
def runsource (o : String → Outcome) (st : St) (source : String) : Option Bool × St :=
  let st := { st with events := st.events ++ [Event.runSource source] }
  match o source with
  | Outcome.incomplete => (some true, st)
  | Outcome.success =>
      (some false, { st with executions := st.executions ++ [source] })
  | Outcome.userExc tb msg =>
      (some false,
       showtraceback { st with executions := st.executions ++ [source] } tb msg)
  | Outcome.syntaxError msg => (some false, write st [Item.str msg] [])
  | Outcome.sysExit => (none, st)

/-- The deletion-shortcut guard of `push`:
`source[:3] == "del" and source[4:] in self.app.objects`. -/
def delShortcut (source : String) (objects : List (String × Value)) : Bool :=
  decide (strTake source 3 = "del") && alMem (strDrop source 4) objects

/-- `Interpreter.push` (interpreter.py:164-186): record the cursor position,
sync the namespace, accumulate the buffered lines with the submitted line,
invoke the pre-processing hook, short-circuit the "del" form by deleting
directly from the object registry, flush the prompt for the "plot" form,
and otherwise hand the accumulated source to `runsource`: when more input is
needed, buffer the raw line plus a newline and append it to the history;
otherwise invoke the post-processing hook, extend the history with each
character of the line, and clear the buffer. Returns `none` when an
exception propagates out of `runsource`. -/
def push (o : String → Outcome) (st : St) (s : String) : Option St :=
  let st := { st with cursorPos := lastLineStart st.display }
  let st := synclocals st
  let source := String.join (st.buffer ++ [s])
  let st := preHook st source
  if delShortcut source st.objects then
    some (prompt { st with objects := alErase (strDrop source 4) st.objects })
  else
    let st := if strTake source 4 = "plot" then prompt st else st
    match runsource o st source with
    | (none, _) => none
    | (some didCompile, st) =>
      if didCompile then
        some (prompt { st with buffer := st.buffer ++ [s ++ "\n"],
                               history := st.history ++ [s] })
      else
        let st := postHook st source
        some (prompt { st with
          history := st.history ++ s.toList.map (fun c => String.mk [c]),
          buffer := [] })

/-- Submitting a sequence of lines one at a time through `push`. -/
def pushAll (o : String → Outcome) (st : St) (ls : List String) : Option St :=
  ls.foldlM (push o) st

/-- `Interpreter.exec` (interpreter.py:156-162): set the suppression flag,
sync the namespace, invoke the pre-processing hook, compile-and-execute the
block through `runsource`, invoke the post-processing hook, and clear the
suppression flag. There is no scoped cleanup: when an exception propagates
out of `runsource`, the function is abandoned at that point (second
component `true`) with the suppression flag still set. -/
def exec (o : String → Outcome) (st : St) (source : String) : St × Bool :=
  let st := { st with preventModuleImport := true,
                      events := st.events ++ [Event.setFlag true] }
  let st := synclocals st
  let st := preHook st source
  match runsource o st source with
  | (none, st) => (st, true)
  | (some _, st) =>
    let st := postHook st source
    ({ st with preventModuleImport := false,
               events := st.events ++ [Event.setFlag false] }, false)

/-! ### Definitions supporting the claim statements -/

/-- Where a binding is routed. -/
inductive Route where
  | toModules
  | toObjects
  | dropped
deriving DecidableEq

/-- Modelled from the amended claim wording: with the suppression flag
inactive, a binding is routed to exactly one registry — modules for a module
value, objects otherwise; with the flag active, a non-module value under a
single-character name or a name without the double-underscore prefix is
still routed to objects, while module values and double-underscore-named
non-module values are dropped (neither registry is notified). -/
def routeOf (flag : Bool) (key : String) (v : Value) : Route :=
  if ismodule v then
    if flag then Route.dropped else Route.toModules
  else
    if flag && decide (key.length ≠ 1 ∧ strTake key 2 = "__") then Route.dropped
    else Route.toObjects

/-- The accumulated sources seen by successive `push` calls submitting the
given lines one at a time, starting from buffer contents `b`, assuming every
submission leaves its line in the buffer (the incomplete case). -/
def accSrcs (b : List String) : List String → List String
  | [] => []
  | l :: ls => String.join (b ++ [l]) :: accSrcs (b ++ [l ++ "\n"]) ls

/-- The accumulated source of the final submission of a multi-line
statement: the buffered lines each followed by a newline, then the final
line. -/
def fullSrc (b : List String) (ls : List String) (last : String) : String :=
  String.join (b ++ ls.map (fun l => l ++ "\n") ++ [last])

/-- A state with the suppression flag set and both registries empty. -/
def stC1 : St := { st0 with preventModuleImport := true }

/-- The oracle for the C2 scenario: the single line "x=1" is a complete
statement; anything else is treated as incomplete. -/
def oC2 (s : String) : Outcome :=
  if s = "x=1" then Outcome.success else Outcome.incomplete

/-- The oracle for the C3 scenario: the line "boom()" executes and raises a
runtime exception whose traceback has the dispatch frame above one user
frame; anything else is treated as incomplete. -/
def oC3 (s : String) : Outcome :=
  if s = "boom()" then
    Outcome.userExc ["  dispatch\n", "  user\n"] "RuntimeError: boom"
  else Outcome.incomplete

/-- An oracle on which every source compiles and executes successfully. -/
def oSuccess (_ : String) : Outcome := Outcome.success

/-- An oracle on which execution raises a propagating exception
(e.g. the user code calls `sys.exit()`). -/
def oSysExit (_ : String) : Outcome := Outcome.sysExit

/-- The oracle for the C5 round-trip scenario: the full two-line `if`
statement followed by a blank line is complete; every proper prefix is
incomplete. -/
def o5 (s : String) : Outcome :=
  if s = "if True:\n    x = 1\n" then Outcome.success else Outcome.incomplete

/-- A state with a non-empty input buffer and the name "x" in the object
registry. -/
def stC6 : St :=
  { st0 with buffer := ["if True:\n"], objects := [("x", Value.obj "1")] }

/-- A state with an empty input buffer and the name "x" in the object
registry. -/
def stC6b : St := { st0 with objects := [("x", Value.obj "1")] }

/-- An oracle treating every source as incomplete. -/
def oIncomplete (_ : String) : Outcome := Outcome.incomplete

/-- A display holding a prompt, with the cursor recorded two characters in. -/
def stC8 : St := { st0 with display := "> ", cursorPos := 2 }

/-- A state whose object registry holds the name "y", for the deletion
shortcut of C10. -/
def stC10 : St := { st0 with objects := [("y", Value.obj "2")] }

/-- A state whose input buffer holds a complete two-line `if` statement,
awaiting the blank line that completes it. -/
def stC10b : St := { st0 with buffer := ["if True:\n", "    x = 1\n"] }

/-! ### Helper lemmas -/

/-- `write` never touches the history. -/
lemma write_history (st : St) (args : List Item) (tags : List String) :
    (write st args tags).history = st.history := by
  unfold write
  split
  · rfl
  split <;> rfl

/-- `write` never touches the input buffer. -/
lemma write_buffer (st : St) (args : List Item) (tags : List String) :
    (write st args tags).buffer = st.buffer := by
  unfold write
  split
  · rfl
  split <;> rfl

/-- `write` never touches the object registry. -/
lemma write_objects (st : St) (args : List Item) (tags : List String) :
    (write st args tags).objects = st.objects := by
  unfold write
  split
  · rfl
  split <;> rfl

/-- `write` never touches the execution log. -/
lemma write_executions (st : St) (args : List Item) (tags : List String) :
    (write st args tags).executions = st.executions := by
  unfold write
  split
  · rfl
  split <;> rfl

/-- `write` never toggles the suppression flag. -/
lemma write_flag (st : St) (args : List Item) (tags : List String) :
    (write st args tags).preventModuleImport = st.preventModuleImport := by
  unfold write
  split
  · rfl
  split <;> rfl

/-- `write` never touches the event log. -/
lemma write_events (st : St) (args : List Item) (tags : List String) :
    (write st args tags).events = st.events := by
  unfold write
  split
  · rfl
  split <;> rfl

/-- `showtraceback` never touches the history. -/
lemma showtraceback_history (st : St) (tb : List String) (msg : String) :
    (showtraceback st tb msg).history = st.history := by
  unfold showtraceback
  simp [write_history]

/-- `showtraceback` never toggles the suppression flag. -/
lemma showtraceback_flag (st : St) (tb : List String) (msg : String) :
    (showtraceback st tb msg).preventModuleImport = st.preventModuleImport := by
  unfold showtraceback
  simp [write_flag]

/-- `showtraceback` never touches the event log. -/
lemma showtraceback_events (st : St) (tb : List String) (msg : String) :
    (showtraceback st tb msg).events = st.events := by
  unfold showtraceback
  simp [write_events]

/-- Character decomposition of a "del "-prefixed source line. -/
lemma toList_del (x : String) :
    ("del " ++ x).toList = 'd' :: 'e' :: 'l' :: ' ' :: x.toList := by
  show ("del " ++ x).data = _
  rw [String.data_append]
  rfl

/-- `source[:3]` of a "del "-prefixed source line is "del". -/
lemma strTake_del (x : String) : strTake ("del " ++ x) 3 = "del" := by
  unfold strTake
  rw [toList_del]
  rfl

/-- `source[4:]` of a "del "-prefixed source line is the deleted name. -/
lemma strDrop_del (x : String) : strDrop ("del " ++ x) 4 = x := by
  unfold strDrop
  rw [toList_del]
  rfl

/-- Pushing a line whose accumulated source is incomplete buffers the raw
line plus a newline, appends it to the history, and leaves everything else
(executions, registries, display) unchanged. -/
lemma push_incomplete (o : String → Outcome) (st : St) (s : String)
    (hdel : delShortcut (String.join (st.buffer ++ [s])) st.objects = false)
    (ho : o (String.join (st.buffer ++ [s])) = Outcome.incomplete) :
    ∃ st', push o st s = some st' ∧
      st'.buffer = st.buffer ++ [s ++ "\n"] ∧
      st'.history = st.history ++ [s] ∧
      st'.executions = st.executions ∧
      st'.objects = st.objects ∧
      st'.modules = st.modules ∧
      st'.display = st.display ∧
      st'.inserts = st.inserts ∧
      st'.preventModuleImport = st.preventModuleImport := by
  by_cases hp : strTake (String.join (st.buffer ++ [s])) 4 = "plot" <;>
    simp [push, synclocals, preHook, prompt, runsource, hdel, ho, hp]

/-- Pushing a line whose accumulated source compiles and executes appends
exactly that accumulated source to the execution log, clears the buffer, and
extends the history character-by-character. -/
lemma push_success (o : String → Outcome) (st : St) (s : String)
    (hdel : delShortcut (String.join (st.buffer ++ [s])) st.objects = false)
    (ho : o (String.join (st.buffer ++ [s])) = Outcome.success) :
    ∃ st', push o st s = some st' ∧
      st'.buffer = [] ∧
      st'.executions = st.executions ++ [String.join (st.buffer ++ [s])] ∧
      st'.history = st.history ++ s.toList.map (fun c => String.mk [c]) ∧
      st'.objects = st.objects ∧
      st'.display = st.display := by
  by_cases hp : strTake (String.join (st.buffer ++ [s])) 4 = "plot" <;>
    simp [push, synclocals, preHook, postHook, prompt, runsource, hdel, ho, hp]

/-- Extending the buffer by a buffered line commutes with `fullSrc`. -/
lemma fullSrc_cons (b : List String) (l : String) (ls : List String) (last : String) :
    fullSrc (b ++ [l ++ "\n"]) ls last = fullSrc b (l :: ls) last := by
  simp [fullSrc]

/-- A string containing a carriage return is not one of the insignificant
literal values. -/
lemma insignificant_str_of_cr (s : String) (h : strContains s '\r' = true) :
    insignificant (Item.str s) = false := by
  have hne : ¬(s = "\x07" ∨ s = "\n" ∨ s = " " ∨ s = "") := by
    rintro (rfl | rfl | rfl | rfl) <;> exact absurd h (by decide)
  show decide (s = "\x07" ∨ s = "\n" ∨ s = " " ∨ s = "") = false
  exact decide_eq_false hne

/-! ### C1: routing of namespace bindings into the two registries -/

/-- C1 counterexample: binding a module value through `setitem` while the
suppression flag is active notifies neither registry — after the call both
registries are still empty, so the mutation is silently dropped, refuting
"never neither". -/
theorem mi_C1_counterexample :
    (setitem stC1 "os" (Value.module "osmod")).modules = [] ∧
    (setitem stC1 "os" (Value.module "osmod")).objects = [] := by decide

/-- C1 (amended): every binding through `setitem` is routed to exactly one
of the two registries or dropped, as described by `routeOf`: with the flag
inactive, exactly one registry receives the entry (modules for module
values, objects otherwise) and the other registry is left unchanged; with
the flag active, module values and dunder-named non-module values notify
neither registry, and the remaining non-module values go to objects only. -/
theorem mi_C1_amended (st : St) (key : String) (v : Value) :
    match routeOf st.preventModuleImport key v with
    | Route.toModules =>
        setitem st key v = { st with modules := alSet key v st.modules }
    | Route.toObjects =>
        setitem st key v = { st with objects := alSet key v st.objects }
    | Route.dropped => setitem st key v = st := by
  unfold routeOf setitem
  by_cases hm : ismodule v
  · by_cases hf : st.preventModuleImport <;> simp [hm, hf]
  · by_cases hf : st.preventModuleImport
    · by_cases hk : key.length = 1 ∨ strTake key 2 ≠ "__"
      · have hc : ¬(key.length ≠ 1 ∧ strTake key 2 = "__") := by tauto
        simp [hm, hf, hk, hc]
      · have hc : key.length ≠ 1 ∧ strTake key 2 = "__" := by tauto
        simp [hm, hf, hk, hc]
    · simp [hm, hf]

/-! ### C2: history update on a completed statement -/

/-- C2 (code behaviour at the failing input): pushing the complete statement
"x=1" with an empty buffer executes it, but the history receives the three
single-character entries "x", "=", "1" (via `history.extend(s)` on a
string) instead of the single entry "x=1" the claim describes. -/
theorem mi_C2_code_behavior :
    (push oC2 st0 "x=1").map St.history = some ["x", "=", "1"] ∧
    (push oC2 st0 "x=1").map St.executions = some ["x=1"] ∧
    (push oC2 st0 "x=1").map St.buffer = some [] := by decide

/-! ### C7: the no-op cases of `write` -/

/-- C7: `write` is a no-op — the whole state, in particular the display
buffer, is unchanged — whenever the suppression flag is active, and on every
single-item call whose item is an all-zero or empty numeric array or one of
the insignificant literal values (bell, newline, space, empty string,
None). -/
theorem mi_C7_write_noop (st : St) (args : List Item) (tags : List String)
    (h : st.preventModuleImport = true ∨ singleInsignificant args = true) :
    write st args tags = st := by
  unfold write
  rcases h with h | h
  · simp [h]
  · by_cases hf : st.preventModuleImport <;> simp [hf, h]

/-- C7 witness: the concrete single-item call `write(st0, "\n")` hits the
insignificant-item case and leaves the state unchanged. -/
theorem mi_C7_witness :
    (st0.preventModuleImport = true ∨ singleInsignificant [Item.str "\n"] = true) ∧
    write st0 [Item.str "\n"] [] = st0 :=
  ⟨Or.inr (by decide), mi_C7_write_noop st0 [Item.str "\n"] [] (Or.inr (by decide))⟩

/-! ### C8: carriage-return collapsing in `write` -/

/-- C8: writing a textual item containing a carriage return truncates the
item to the text after its last carriage return, erases the display from the
recorded cursor position to the end and replaces it with a newline, then
writes the remainder (followed by the standard trailing-newline rule). -/
theorem mi_C8_cr_collapse (st : St) (s : String) (tags : List String)
    (hflag : st.preventModuleImport = false)
    (hcr : strContains s '\r' = true) :
    (write st [Item.str s] tags).display =
      finishDisplay (strTake st.display st.cursorPos ++ "\n" ++ afterLastCR s) := by
  unfold write
  simp [hflag, singleInsignificant, insignificant_str_of_cr s hcr, writeStep, hcr, itemStr]

/-- C8 witness: writing "abc\rdef" onto the concrete display "> " with
recorded cursor position 2 produces "> \ndef\n" — only "def" appears after
the recorded cursor position, not "abc\rdef". -/
theorem mi_C8_witness :
    strContains "abc\rdef" '\r' = true ∧
    (write stC8 [Item.str "abc\rdef"] []).display = "> \ndef\n" :=
  ⟨by decide,
   (mi_C8_cr_collapse stC8 "abc\rdef" [] (by decide) (by decide)).trans (by decide)⟩

/-! ### C9: elision of the dispatch frame in rendered tracebacks -/

/-- C9: for an exception whose traceback consists of the interpreter's own
dispatch frame followed by the user frames, `showtraceback` renders (as a
single red-tagged span) the standard traceback format containing exactly the
user frames in their original order and the exception message — the
outermost dispatch frame is excluded. -/
theorem mi_C9_elision (st : St) (dispatch : String) (userFrames : List String)
    (msg : String)
    (hflag : st.preventModuleImport = false)
    (hins : insignificant
      (Item.str (rstrip (String.join (format_exception userFrames msg)))) = false)
    (hcr : strContains
      (rstrip (String.join (format_exception userFrames msg))) '\r' = false) :
    (showtraceback st (dispatch :: userFrames) msg).inserts =
      st.inserts ++
        [(rstrip (String.join (format_exception userFrames msg)),
          redForce (rstrip (String.join (format_exception userFrames msg))) ["red"])] ∧
    (showtraceback st (dispatch :: userFrames) msg).consoleFocused = true := by
  unfold showtraceback write
  simp [hflag, singleInsignificant, hins, writeStep, hcr, itemStr]

/-- C9 witness: a synthetic exception three user frames deep under the
dispatch frame renders exactly the three user frames in order, without the
dispatch frame. -/
theorem mi_C9_witness :
    (showtraceback st0 ("  dispatch\n" :: ["  f1\n", "  f2\n", "  f3\n"])
        "ValueError: x").inserts =
      st0.inserts ++
        [(rstrip (String.join
            (format_exception ["  f1\n", "  f2\n", "  f3\n"] "ValueError: x")),
          redForce (rstrip (String.join
            (format_exception ["  f1\n", "  f2\n", "  f3\n"] "ValueError: x"))) ["red"])] ∧
    (showtraceback st0 ("  dispatch\n" :: ["  f1\n", "  f2\n", "  f3\n"])
        "ValueError: x").consoleFocused = true :=
  mi_C9_elision st0 "  dispatch\n" ["  f1\n", "  f2\n", "  f3\n"] "ValueError: x"
    (by decide) (by decide) (by decide)

/-! ### C5: round-trip of a multi-line statement -/

/-- C5: submitting the lines of a multi-line statement one at a time — each
accumulated prefix compiling as incomplete, no submission hitting the
deletion shortcut — followed by a final line whose accumulated source
compiles as complete, triggers exactly one execution whose source is the
concatenation of all buffered lines (each with its line terminator) plus
the final line, after which the input buffer is empty. -/
theorem mi_C5_roundtrip (o : String → Outcome) :
    ∀ (ls : List String) (st : St) (last : String),
    (∀ src ∈ accSrcs st.buffer ls, o src = Outcome.incomplete) →
    (∀ src ∈ accSrcs st.buffer ls, delShortcut src st.objects = false) →
    delShortcut (fullSrc st.buffer ls last) st.objects = false →
    o (fullSrc st.buffer ls last) = Outcome.success →
    ∃ st', pushAll o st (ls ++ [last]) = some st' ∧
      st'.executions = st.executions ++ [fullSrc st.buffer ls last] ∧
      st'.buffer = [] := by
  intro ls
  induction ls with
  | nil =>
    intro st last _ _ hdel hsucc
    have hfs : fullSrc st.buffer [] last = String.join (st.buffer ++ [last]) := by
      simp [fullSrc]
    rw [hfs] at hdel hsucc
    obtain ⟨st', hpush, hbuf, hexec, _⟩ := push_success o st last hdel hsucc
    refine ⟨st', ?_, ?_, hbuf⟩
    · simp [pushAll, List.foldlM, hpush]
    · rw [hexec, hfs]
  | cons l ls ih =>
    intro st last hinc hdels hdel hsucc
    have hinc0 : o (String.join (st.buffer ++ [l])) = Outcome.incomplete := by
      exact hinc _ (by simp [accSrcs])
    have hdel0 : delShortcut (String.join (st.buffer ++ [l])) st.objects = false := by
      exact hdels _ (by simp [accSrcs])
    obtain ⟨st1, hpush1, hbuf1, _, hexec1, hobj1, _, _, _, _⟩ :=
      push_incomplete o st l hdel0 hinc0
    have hstep : pushAll o st ((l :: ls) ++ [last]) = pushAll o st1 (ls ++ [last]) := by
      simp [pushAll, List.foldlM, hpush1]
    obtain ⟨st', hpushrest, hexec, hbuf⟩ := ih st1 last
      (by rw [hbuf1]; intro src hsrc; exact hinc src (by simp [accSrcs, hsrc]))
      (by rw [hbuf1, hobj1]; intro src hsrc; exact hdels src (by simp [accSrcs, hsrc]))
      (by rw [hbuf1, hobj1, fullSrc_cons]; exact hdel)
      (by rw [hbuf1, fullSrc_cons]; exact hsucc)
    refine ⟨st', by rw [hstep, hpushrest], ?_, hbuf⟩
    rw [hexec, hexec1, hbuf1, fullSrc_cons]

/-- C5 witness: the spec's example — "if True:" (incomplete), then
"    x = 1" (still incomplete), then a blank line — produces exactly one
execution with the concatenated source and an empty buffer. -/
theorem mi_C5_witness :
    ∃ st', pushAll o5 st0 (["if True:", "    x = 1"] ++ [""]) = some st' ∧
      st'.executions =
        st0.executions ++ [fullSrc st0.buffer ["if True:", "    x = 1"] ""] ∧
      st'.buffer = [] :=
  mi_C5_roundtrip o5 ["if True:", "    x = 1"] st0 ""
    (by decide) (by decide) (by decide) (by decide)

/-! ### C3: visibility of runtime exceptions -/

/-- C3 counterexample: a runtime exception raised by user code during a
multi-statement block run via `exec` is rendered nowhere: the suppression
flag is active at that point, so the `write` performed by the exception hook
is a no-op — display and span log stay empty. This is a silent-failure
path, refuting the claim that none exists. -/
theorem mi_C3_counterexample :
    (exec oC3 st0 "boom()").1.display = "" ∧
    (exec oC3 st0 "boom()").1.inserts = [] := by decide

/-- C3 (amended): a runtime exception raised during an interactive `push`
(suppression flag inactive) is rendered as formatted traceback text tagged
"red", with the console view brought into focus; an exception raised while
the suppression flag is active (during `exec`) is silently dropped by
`write` (the counterexample). -/
theorem mi_C3_amended (o : String → Outcome) (st : St) (s : String)
    (tb : List String) (msg : String)
    (hflag : st.preventModuleImport = false)
    (hdel : delShortcut (String.join (st.buffer ++ [s])) st.objects = false)
    (ho : o (String.join (st.buffer ++ [s])) = Outcome.userExc tb msg)
    (hins : insignificant
      (Item.str (rstrip (String.join (format_exception (tb.drop 1) msg)))) = false)
    (hcr : strContains
      (rstrip (String.join (format_exception (tb.drop 1) msg))) '\r' = false) :
    ∃ st', push o st s = some st' ∧
      st'.consoleFocused = true ∧
      (rstrip (String.join (format_exception (tb.drop 1) msg)),
        redForce (rstrip (String.join (format_exception (tb.drop 1) msg))) ["red"])
        ∈ st'.inserts := by
  simp only [List.drop_one] at hins hcr
  by_cases hp : strTake (String.join (st.buffer ++ [s])) 4 = "plot" <;>
    simp [push, synclocals, preHook, postHook, prompt, runsource, showtraceback,
          write, hdel, ho, hp, hflag, singleInsignificant, hins, writeStep, hcr,
          itemStr]

/-- C3 witness: the concrete exception of the `oC3` oracle, raised during an
interactive push, is rendered red and the console focused. -/
theorem mi_C3_witness :
    ∃ st', push oC3 st0 "boom()" = some st' ∧
      st'.consoleFocused = true ∧
      (rstrip (String.join
         (format_exception (["  dispatch\n", "  user\n"].drop 1) "RuntimeError: boom")),
        redForce (rstrip (String.join
          (format_exception (["  dispatch\n", "  user\n"].drop 1) "RuntimeError: boom")))
          ["red"]) ∈ st'.inserts :=
  mi_C3_amended oC3 st0 "boom()" ["  dispatch\n", "  user\n"] "RuntimeError: boom"
    (by decide) (by decide) (by decide) (by decide) (by decide)

/-! ### C4: exec ordering and suppression-flag restoration -/

/-- C4 counterexample: when execution raises a propagating exception (such
as SystemExit), `exec` terminates abruptly with the suppression flag still
set — it is not restored, refuting "restored even if execution raises". -/
theorem mi_C4_counterexample :
    (exec oSysExit st0 "raise SystemExit").2 = true ∧
    (exec oSysExit st0 "raise SystemExit").1.preventModuleImport = true := by decide

/-- C4 (amended): on every call on which execution does not raise a
propagating exception, `exec` performs, in this order: set the suppression
flag true, sync the namespace, invoke the pre-processing hook with the raw
source, compile-and-execute the block, invoke the post-processing hook with
the raw source, set the suppression flag false; and the flag is false
afterwards. When execution raises, the flag is left true (counterexample). -/
theorem mi_C4_amended (o : String → Outcome) (st : St) (source : String)
    (h : o source ≠ Outcome.sysExit) :
    (exec o st source).2 = false ∧
    (exec o st source).1.preventModuleImport = false ∧
    (exec o st source).1.events =
      st.events ++ [Event.setFlag true, Event.sync, Event.preHook source,
                    Event.runSource source, Event.postHook source,
                    Event.setFlag false] := by
  cases ho : o source
  case sysExit => exact absurd ho h
  all_goals
    simp [exec, synclocals, preHook, postHook, runsource, ho,
          showtraceback_events, write_events]

/-- C4 witness: a successfully executed block leaves the flag false and the
six events in the stated order. -/
theorem mi_C4_witness :
    (exec oSuccess st0 "import os").2 = false ∧
    (exec oSuccess st0 "import os").1.preventModuleImport = false ∧
    (exec oSuccess st0 "import os").1.events =
      st0.events ++ [Event.setFlag true, Event.sync, Event.preHook "import os",
                     Event.runSource "import os", Event.postHook "import os",
                     Event.setFlag false] :=
  mi_C4_amended oSuccess st0 "import os" (by decide)

/-! ### C6: the deletion shortcut -/

/-- C6 counterexample: submitting the line "del x" while the input buffer is
non-empty (here holding "if True:\n") does not remove "x" from the object
registry — the shortcut tests the accumulated source, which no longer starts
with "del" — and the source is handed to compilation (a runSource event is
logged), refuting the claim for such submissions. -/
theorem mi_C6_counterexample :
    (push oIncomplete stC6 "del x").map (fun st => alMem "x" st.objects) =
      some true ∧
    (push oIncomplete stC6 "del x").map
      (fun st => decide (Event.runSource "if True:\ndel x" ∈ st.events)) =
      some true := by decide

/-- C6 (amended): submitting "del x" with an *empty input buffer* (so the
accumulated source is exactly the submitted line) when x is a key of the
object registry removes x from the registry directly, does not raise
(returns normally), and never reaches compilation or execution: no
runSource event is logged, the execution log, history and buffer are
untouched. -/
theorem mi_C6_amended (o : String → Outcome) (st : St) (x : String)
    (hbuf : st.buffer = [])
    (hx : alMem x st.objects = true) :
    ∃ st', push o st ("del " ++ x) = some st' ∧
      st'.objects = alErase x st.objects ∧
      st'.history = st.history ∧
      st'.buffer = [] ∧
      st'.executions = st.executions ∧
      st'.events = st.events ++ [Event.sync, Event.preHook ("del " ++ x)] := by
  have hds : delShortcut ("del " ++ x) st.objects = true := by
    simp [delShortcut, strTake_del, strDrop_del, hx]
  simp [push, synclocals, preHook, prompt, hbuf, String.join, hds, strDrop_del]

/-- C6 witness: deleting the concrete registry entry "x" from a state with
an empty buffer. -/
theorem mi_C6_witness :
    stC6b.buffer = [] ∧ alMem "x" stC6b.objects = true ∧
    (∃ st', push oIncomplete stC6b ("del " ++ "x") = some st' ∧
      st'.objects = alErase "x" stC6b.objects ∧
      st'.history = stC6b.history ∧
      st'.buffer = [] ∧
      st'.executions = stC6b.executions ∧
      st'.events = stC6b.events ++ [Event.sync, Event.preHook ("del " ++ "x")]) :=
  ⟨by decide, by decide, mi_C6_amended oIncomplete stC6b "x" (by decide) (by decide)⟩

/-! ### C10: frame effect of the deletion shortcut -/

/-- C10 counterexample: the deletion shortcut is not the only kind of
submission that never appears in the history. Submitting the blank line
that completes a buffered two-line statement does not fire the shortcut and
genuinely executes the accumulated source, yet leaves the history exactly
as it was: the completed path runs `history.extend("")`, which appends
nothing. -/
theorem mi_C10_counterexample :
    delShortcut (String.join (stC10b.buffer ++ [""])) stC10b.objects = false ∧
    (push o5 stC10b "").map St.executions = some ["if True:\n    x = 1\n"] ∧
    (push o5 stC10b "").map St.history = some stC10b.history := by decide

/-- C10 (amended): when the deletion shortcut fires, `push` returns early
leaving the history, the input buffer and the execution log untouched and
without invoking the compile/execute primitive. It is not the only kind of
submission without a history trace: every other submission whose execution
does not raise a propagating exception updates the history with the whole
line (incomplete path) or with its individual characters (completed path) —
which adds nothing when the submitted line is empty (the counterexample). -/
theorem mi_C10_del_frame (o : String → Outcome) (st : St) (s : String) :
    (delShortcut (String.join (st.buffer ++ [s])) st.objects = true →
      ∃ st', push o st s = some st' ∧ st'.history = st.history ∧
        st'.buffer = st.buffer ∧ st'.executions = st.executions ∧
        st'.events = st.events ++
          [Event.sync, Event.preHook (String.join (st.buffer ++ [s]))]) ∧
    (delShortcut (String.join (st.buffer ++ [s])) st.objects = false →
      o (String.join (st.buffer ++ [s])) ≠ Outcome.sysExit →
      ∃ st', push o st s = some st' ∧
        (st'.history = st.history ++ [s] ∨
         st'.history = st.history ++ s.toList.map (fun c => String.mk [c]))) := by
  constructor
  · intro hdel
    simp [push, synclocals, preHook, prompt, hdel]
  · intro hdel hns
    cases ho : o (String.join (st.buffer ++ [s]))
    case incomplete =>
      obtain ⟨st', h1, _, h2, _⟩ := push_incomplete o st s hdel ho
      exact ⟨st', h1, Or.inl h2⟩
    case success =>
      obtain ⟨st', h1, _, _, h2, _⟩ := push_success o st s hdel ho
      exact ⟨st', h1, Or.inr h2⟩
    case userExc tb msg =>
      by_cases hp : strTake (String.join (st.buffer ++ [s])) 4 = "plot" <;>
        simp [push, synclocals, preHook, postHook, prompt, runsource, ho, hdel,
              hp, showtraceback_history, write_history]
    case syntaxError msg =>
      by_cases hp : strTake (String.join (st.buffer ++ [s])) 4 = "plot" <;>
        simp [push, synclocals, preHook, postHook, prompt, runsource, ho, hdel,
              hp, write_history]
    case sysExit => exact absurd ho hns

/-- C10 witness: the shortcut firing on the concrete state `stC10`. -/
theorem mi_C10_witness :
    ∃ st', push oIncomplete stC10 "del y" = some st' ∧
      st'.history = stC10.history ∧
      st'.buffer = stC10.buffer ∧ st'.executions = stC10.executions ∧
      st'.events = stC10.events ++
        [Event.sync, Event.preHook (String.join (stC10.buffer ++ ["del y"]))] :=
  (mi_C10_del_frame oIncomplete stC10 "del y").1 (by decide)

end MathInspector
